import Mathlib

/-!
Verification of the capsule-run sandbox executor against its specification.

The definitions below are a shallow embedding of the repository's Rust
sources: `src/error.rs`, `src/api/schema.rs`, `src/executor/io.rs`,
`src/executor/mod.rs`, `src/sandbox/cgroups.rs`, `src/sandbox/macos.rs`
and `src/main.rs`.  Machine integers (`u32`, `u64`, `usize`, `i32`) are
modelled as `Nat`/`Int` (no arithmetic in the modelled code can overflow:
values are only compared, divided or printed).  Byte buffers (`Vec<u8>`)
are modelled as `List Nat`; captured streams are kept as byte lists (the
response renders them by lossy UTF-8 decode, which is outside the
granularity of these claims).  JSON detail values (`serde_json::Value`)
are modelled as flat objects over numbers and strings, which covers every
`json!` literal the program builds.
-/

/-- Byte buffers (`Vec<u8>`) are lists of byte values. -/
abbrev ByteSeq := List Nat

/-- Primitive JSON values appearing in the `json!` detail objects built by
the program (`serde_json::Value` restricted to what the code constructs). -/
inductive JsonVal where
  | num (n : Int)
  | str (s : String)
deriving DecidableEq

/-- Flat JSON objects, as association lists, covering every `json!({...})`
literal in `src/executor/mod.rs` and `src/api/schema.rs`. -/
abbrev JsonObj := List (String × JsonVal)

/-- Model of `SandboxError` from `src/error.rs`. -/
inductive SandboxError where
  | namespaceCreation (ns : String)
  | cgroupSetup (msg : String)
  | seccompSetup (msg : String)
  | filesystemSetup (msg : String)
  | capabilityDrop (msg : String)
  | userMapping (msg : String)
deriving DecidableEq

/-- Model of `ExecutionError` from `src/error.rs`. -/
inductive ExecutionError where
  | timeoutErr (timeout_ms : Nat)
  | signal (signal : Int)
  | spawnFailed (msg : String)
  | ioCaptureError (msg : String)
  | monitoringError (msg : String)
  | outputSizeLimit (limit : Nat)
deriving DecidableEq

/-- Model of `CapsuleError` from `src/error.rs`.  The `Io` and `Json`
variants carry their rendered messages. -/
inductive CapsuleError where
  | config (msg : String)
  | sandboxSetup (e : SandboxError)
  | execution (e : ExecutionError)
  | resourceLimit (msg : String)
  | security (msg : String)
  | ioErr (msg : String)
  | jsonErr (msg : String)
  | syscall (msg : String)
deriving DecidableEq

/-- Model of `ErrorCategory` from `src/error.rs`. -/
inductive ErrorCategory where
  | configuration
  | security
  | resource
  | execution
  | system
deriving DecidableEq

/-- Model of the `ErrorCode` struct from `src/error.rs`. -/
structure ErrorCode where
  code : String
  message : String
  category : ErrorCategory
deriving DecidableEq

/-- Model of `impl From<CapsuleError> for ErrorCode` in `src/error.rs`
(lines 104-170), including the exact code strings and message formats. -/
def errorCodeFrom : CapsuleError → ErrorCode
  | .config msg => ⟨"E1001", msg, .configuration⟩
  | .sandboxSetup (.namespaceCreation ns) =>
      ⟨"E2001", "Failed to create " ++ ns ++ " namespace", .security⟩
  | .sandboxSetup (.cgroupSetup msg) => ⟨"E2002", msg, .resource⟩
  | .sandboxSetup (.seccompSetup msg) => ⟨"E2003", msg, .security⟩
  | .sandboxSetup (.filesystemSetup msg) => ⟨"E2004", msg, .security⟩
  | .sandboxSetup (.capabilityDrop msg) => ⟨"E2005", msg, .security⟩
  | .sandboxSetup (.userMapping msg) => ⟨"E2006", msg, .security⟩
  | .execution (.timeoutErr timeout_ms) =>
      ⟨"E3001", "Command exceeded timeout limit of " ++ toString timeout_ms ++ "ms",
       .execution⟩
  | .execution (.signal s) =>
      ⟨"E3002", "Command killed by signal " ++ toString s, .execution⟩
  | .execution (.spawnFailed msg) => ⟨"E3003", msg, .execution⟩
  | .execution (.ioCaptureError msg) => ⟨"E3004", msg, .system⟩
  | .execution (.monitoringError msg) => ⟨"E3005", msg, .system⟩
  | .execution (.outputSizeLimit limit) =>
      ⟨"E3006", "Output exceeded size limit of " ++ toString limit ++ " bytes",
       .resource⟩
  | .resourceLimit msg => ⟨"E4001", msg, .resource⟩
  | .security msg => ⟨"E5001", msg, .security⟩
  | .ioErr msg => ⟨"E6001", "I/O operation failed: " ++ msg, .system⟩
  | .jsonErr msg => ⟨"E6002", "JSON parsing failed: " ++ msg, .configuration⟩
  | .syscall msg => ⟨"E6003", msg, .system⟩

/-- Model of `ExecutionStatus` from `src/api/schema.rs`. -/
inductive ExecutionStatus where
  | success
  | error
  | timeout
  | killed
deriving DecidableEq

/-- Model of `ExecutionMetrics` from `src/api/schema.rs`. -/
structure ExecutionMetrics where
  wall_time_ms : Nat
  cpu_time_ms : Nat
  user_time_ms : Nat
  kernel_time_ms : Nat
  max_memory_bytes : Nat
  io_bytes_read : Nat
  io_bytes_written : Nat
deriving DecidableEq

/-- Model of `ErrorResponse` from `src/api/schema.rs`. -/
structure ErrorResponse where
  code : String
  message : String
  details : Option JsonObj
deriving DecidableEq

/-- Model of `ExecutionResponse` from `src/api/schema.rs`.  Timestamps are
milliseconds since the epoch (`DateTime<Utc>`); the execution id is an
abstract numeric identifier. -/
structure ExecutionResponse where
  execution_id : Nat
  status : ExecutionStatus
  exit_code : Option Int
  stdout : Option ByteSeq
  stderr : Option ByteSeq
  metrics : Option ExecutionMetrics
  started : Int
  completed : Int
  error : Option ErrorResponse
deriving DecidableEq

/-- Model of `ExecutionResponse::success` (`src/api/schema.rs` lines 127-146). -/
def ExecutionResponse.success (execution_id : Nat) (exit_code : Int)
    (stdout stderr : ByteSeq) (metrics : ExecutionMetrics)
    (started completed : Int) : ExecutionResponse :=
  { execution_id := execution_id
    status := .success
    exit_code := some exit_code
    stdout := some stdout
    stderr := some stderr
    metrics := some metrics
    started := started
    completed := completed
    error := none }

/-- Model of `ExecutionResponse::error` (`src/api/schema.rs` lines 148-164);
named `errorResp` because `error` is already the field name. -/
def ExecutionResponse.errorResp (execution_id : Nat) (error : ErrorResponse)
    (started completed : Int) : ExecutionResponse :=
  { execution_id := execution_id
    status := .error
    exit_code := none
    stdout := none
    stderr := none
    metrics := none
    started := started
    completed := completed
    error := some error }

/-- Model of `ExecutionResponse::timeout` (`src/api/schema.rs` lines 166-191):
status `Timeout`, error code `E3001`, details `{timeout_ms, elapsed_ms}`,
and no exit code, streams or metrics.  `elapsed_ms` is
`(completed - started).num_milliseconds()`. -/
def ExecutionResponse.timeout (execution_id : Nat) (timeout_ms : Nat)
    (started completed : Int) : ExecutionResponse :=
  { execution_id := execution_id
    status := .timeout
    exit_code := none
    stdout := none
    stderr := none
    metrics := none
    started := started
    completed := completed
    error := some
      { code := "E3001"
        message := "Command exceeded timeout limit of " ++ toString timeout_ms ++ "ms"
        details := some [("timeout_ms", .num timeout_ms),
                         ("elapsed_ms", .num (completed - started))] } }

deriving instance DecidableEq for Except

/-- Model of `signal_name` from `src/executor/mod.rs` (lines 442-477). -/
def signal_name : Int → String
  | 1 => "SIGHUP"
  | 2 => "SIGINT"
  | 3 => "SIGQUIT"
  | 4 => "SIGILL"
  | 5 => "SIGTRAP"
  | 6 => "SIGABRT"
  | 7 => "SIGBUS"
  | 8 => "SIGFPE"
  | 9 => "SIGKILL"
  | 10 => "SIGUSR1"
  | 11 => "SIGSEGV"
  | 12 => "SIGUSR2"
  | 13 => "SIGPIPE"
  | 14 => "SIGALRM"
  | 15 => "SIGTERM"
  | 16 => "SIGSTKFLT"
  | 17 => "SIGCHLD"
  | 18 => "SIGCONT"
  | 19 => "SIGSTOP"
  | 20 => "SIGTSTP"
  | 21 => "SIGTTIN"
  | 22 => "SIGTTOU"
  | 23 => "SIGURG"
  | 24 => "SIGXCPU"
  | 25 => "SIGXFSZ"
  | 26 => "SIGVTALRM"
  | 27 => "SIGPROF"
  | 28 => "SIGWINCH"
  | 29 => "SIGIO"
  | 30 => "SIGPWR"
  | 31 => "SIGSYS"
  | _ => "UNKNOWN"

/-- One result of `stream.read(&mut temp_buffer)` observed by a capture
thread in `src/executor/io.rs`: a chunk of bytes (`Ok(n)` with the bytes
read), an `EINTR` interruption, or a read error with its message.  End of
file (`Ok(0)`) is the end of the event list. -/
inductive ReadEvent where
  | chunk (data : ByteSeq)
  | interrupted
  | readErr (msg : String)
deriving DecidableEq

/-- Loop body of `IoCapture::capture_stream` (`src/executor/io.rs` lines
61-89), threading the accumulated buffer: a chunk that would push the
buffer past `max_size` aborts with `OutputSizeLimit {limit: max_size}`;
`EINTR` is ignored; any other read error aborts with `IoCaptureError`. -/
def captureStreamGo (max_size : Nat) (stream_name : String) :
    List ReadEvent → ByteSeq → Except CapsuleError ByteSeq
  | [], buffer => .ok buffer
  | .chunk data :: rest, buffer =>
      if buffer.length + data.length > max_size then
        .error (.execution (.outputSizeLimit max_size))
      else
        captureStreamGo max_size stream_name rest (buffer ++ data)
  | .interrupted :: rest, buffer => captureStreamGo max_size stream_name rest buffer
  | .readErr e :: _, _ =>
      .error (.execution (.ioCaptureError
        ("Failed to read from " ++ stream_name ++ ": " ++ e)))

/-- Model of `IoCapture::capture_stream` (`src/executor/io.rs` lines 61-89):
runs the read loop starting from an empty buffer. -/
def capture_stream (events : List ReadEvent) (max_size : Nat)
    (stream_name : String) : Except CapsuleError ByteSeq :=
  captureStreamGo max_size stream_name events []

/-- Model of `IoCapture::wait_for_completion` (`src/executor/io.rs` lines
38-59): joins the stdout capture first, then the stderr capture, each run
with the same `max_output_size`; the first error is propagated.  The
captured byte buffers are returned (the code then renders them by lossy
UTF-8 decode). -/
def wait_for_completion (stdout_events stderr_events : List ReadEvent)
    (max_output_size : Nat) : Except CapsuleError (ByteSeq × ByteSeq) :=
  match capture_stream stdout_events max_output_size "stdout" with
  | .error e => .error e
  | .ok stdout =>
      match capture_stream stderr_events max_output_size "stderr" with
      | .error e => .error e
      | .ok stderr => .ok (stdout, stderr)

/-- Model of `std::process::ExitStatus` as the executor reads it:
`status.code()` and, on Unix, `status.signal()`. -/
structure ExitStatus where
  code : Option Int
  signal : Option Int
deriving DecidableEq

/-- Observations available to one iteration of the poll loop in
`Executor::execute_command` (`src/executor/mod.rs` lines 150-271):
the elapsed wall time at the timeout check, the result of
`child.try_wait()` (`Err` carries the I/O error message), and whether
`sandbox.check_oom_killed()` returned `Ok(true)`. -/
structure TickObs where
  elapsed : Nat
  tryWait : Except String (Option ExitStatus)
  oom : Bool
deriving DecidableEq

/-- Terminal outcome of the poll loop in `Executor::execute_command`. -/
inductive LoopOutcome where
  | timedOut
  | signaled (sig : Int)
  | exited (code : Int)
  | monitorError (msg : String)
  | oomKilled
deriving DecidableEq

/-- One iteration of the poll loop in `Executor::execute_command`
(`src/executor/mod.rs` lines 150-271), in the source's order: the timeout
check runs first; then `try_wait` — a signal exit returns the `E3003`
error, any other exit returns with `status.code().unwrap_or(-1)`, and an
inspection error returns `MonitoringError`; the OOM check runs only when
the child is still running; otherwise the iteration yields nothing and
the loop continues. -/
def stepTick (timeout_ms : Nat) (t : TickObs) : Option LoopOutcome :=
  if t.elapsed ≥ timeout_ms then
    some .timedOut
  else
    match t.tryWait with
    | .error e => some (.monitorError ("Failed to check process status: " ++ e))
    | .ok (some st) =>
        match st.signal with
        | some sig => some (.signaled sig)
        | none => some (.exited (st.code.getD (-1)))
    | .ok none => if t.oom then some .oomKilled else none

/-- The poll loop of `Executor::execute_command` over a trace of per-tick
observations; `none` means the trace ended with the loop still running. -/
def pollLoop (timeout_ms : Nat) : List TickObs → Option LoopOutcome
  | [] => none
  | t :: ts =>
      match stepTick timeout_ms t with
      | some outcome => some outcome
      | none => pollLoop timeout_ms ts

/-- Wrapping of a `CapsuleError` escaping `execute_command` into an error
response by `Executor::execute` (`src/executor/mod.rs` lines 65-78):
code and message come from `ErrorCode::from`, details are `None`. -/
def errorResponseNoDetails (e : CapsuleError) : ErrorResponse :=
  { code := (errorCodeFrom e).code
    message := (errorCodeFrom e).message
    details := none }

/-- Response produced for a terminal poll-loop outcome by
`Executor::execute_command` together with the `Err` fan-in of
`Executor::execute` (`src/executor/mod.rs` lines 35-272, batch mode):
timeout → `ExecutionResponse::timeout`; signal exit → `E3003` error with
`{signal, signal_name}` details; normal exit → the I/O capture result is
joined (`wait_for_completion`), a capture error is wrapped via
`ErrorCode::from`, otherwise `ExecutionResponse::success`; a `try_wait`
error is wrapped as `MonitoringError`; an OOM tick → `E4002` error with
`{memory_limit}` details. -/
def responseOfOutcome (execution_id : Nat) (timeout_ms : Nat)
    (memory_bytes : Nat) (ioResult : Except CapsuleError (ByteSeq × ByteSeq))
    (metrics : ExecutionMetrics) (started completed : Int) :
    LoopOutcome → ExecutionResponse
  | .timedOut => ExecutionResponse.timeout execution_id timeout_ms started completed
  | .signaled sig =>
      ExecutionResponse.errorResp execution_id
        { code := "E3003"
          message := "Process killed by signal " ++ toString sig
          details := some [("signal", .num sig),
                           ("signal_name", .str (signal_name sig))] }
        started completed
  | .exited code =>
      match ioResult with
      | .ok (stdout, stderr) =>
          ExecutionResponse.success execution_id code stdout stderr metrics
            started completed
      | .error e =>
          ExecutionResponse.errorResp execution_id (errorResponseNoDetails e)
            started completed
  | .monitorError msg =>
      ExecutionResponse.errorResp execution_id
        (errorResponseNoDetails (.execution (.monitoringError msg)))
        started completed
  | .oomKilled =>
      ExecutionResponse.errorResp execution_id
        { code := "E4002"
          message := "Process killed due to memory limit"
          details := some [("memory_limit", .num memory_bytes)] }
        started completed

/-- How one run of `Executor::execute` (`src/executor/mod.rs` lines 35-80)
terminated: sandbox setup failed with a `CapsuleError`; the spawn failed;
or the poll loop of `execute_command` reached a terminal outcome. -/
inductive ExecOutcome where
  | setupFailed (e : CapsuleError)
  | spawnFailedOutcome (msg : String)
  | polled (o : LoopOutcome)
deriving DecidableEq

/-- The `ExecutionResponse` built by `Executor::execute` for each way a run
can terminate (`src/executor/mod.rs`): setup and spawn failures are wrapped
through `ErrorCode::from` with no details; loop outcomes go through
`responseOfOutcome`. -/
def executeResponse (execution_id : Nat) (timeout_ms : Nat)
    (memory_bytes : Nat) (ioResult : Except CapsuleError (ByteSeq × ByteSeq))
    (metrics : ExecutionMetrics) (started completed : Int) :
    ExecOutcome → ExecutionResponse
  | .setupFailed e =>
      ExecutionResponse.errorResp execution_id (errorResponseNoDetails e)
        started completed
  | .spawnFailedOutcome msg =>
      ExecutionResponse.errorResp execution_id
        (errorResponseNoDetails (.execution (.spawnFailed msg)))
        started completed
  | .polled o =>
      responseOfOutcome execution_id timeout_ms memory_bytes ioResult metrics
        started completed o

/-- Response well-formedness stated by the spec (§3 invariants): a
`Success` response has an exit code, every other status has an error. -/
def wellFormed (r : ExecutionResponse) : Bool :=
  match r.status with
  | .success => r.exit_code.isSome
  | _ => r.error.isSome

/-- Model of `ResourceLimits` from `src/api/schema.rs`. -/
structure ResourceLimits where
  memory_bytes : Nat
  cpu_shares : Nat
  max_output_bytes : Nat
  max_pids : Nat
deriving DecidableEq

/-- Sequence of `(file, content)` writes performed by
`CgroupManager::setup` (`src/sandbox/cgroups.rs` lines 36-44), in source
order: `create_cgroup` writes the controller string to
`cgroup.subtree_control`; then `memory.max`, `memory.swap.max`,
`memory.low` (half the limit), `cpu.weight` (the `cpu_shares` value
verbatim), `pids.max`, `io.weight` (static `100`), and finally the
current pid into `cgroup.procs`. -/
def cgroupSetupWrites (limits : ResourceLimits) (current_pid : Nat) :
    List (String × String) :=
  [("cgroup.subtree_control", "+memory +cpu +pids +io"),
   ("memory.max", toString limits.memory_bytes),
   ("memory.swap.max", "0"),
   ("memory.low", toString (limits.memory_bytes / 2)),
   ("cpu.weight", toString limits.cpu_shares),
   ("pids.max", toString limits.max_pids),
   ("io.weight", "100"),
   ("cgroup.procs", toString current_pid)]

/-- Modelled from the spec: the clamp of `cpu_shares` into the cgroup-v2
weight range `[1, 10000]` that §4.1 and claim C6 say is applied before the
`cpu.weight` write.  The source (`CgroupManager::set_cpu_limit`) performs
no such clamp. -/
def specClampWeight (cpu_shares : Nat) : Nat :=
  max 1 (min cpu_shares 10000)

/-- Filesystem paths as component lists. -/
abbrev FsPath := List String

/-- Leaf cgroup path `<cgroup2-mount>/capsule-run/<execution-id>` computed
by `CgroupManager::new` (`src/sandbox/cgroups.rs` lines 24-34). -/
def cgroup_path (cgroup_base : FsPath) (execution_id : String) : FsPath :=
  cgroup_base ++ ["capsule-run", execution_id]

/-- Target path of `CgroupManager::write_cgroup_file` (`src/sandbox/cgroups.rs`
lines 145-169): the named file joined under the leaf cgroup path. -/
def write_cgroup_file_path (cgroup_base : FsPath) (execution_id : String)
    (filename : String) : FsPath :=
  cgroup_path cgroup_base execution_id ++ [filename]

/-- Path that receives the `"+memory +cpu +pids +io"` controller string in
`CgroupManager::create_cgroup` (`src/sandbox/cgroups.rs` lines 108-109):
the code calls `write_cgroup_file("cgroup.subtree_control", ...)`. -/
def subtree_control_write_path (cgroup_base : FsPath)
    (execution_id : String) : FsPath :=
  write_cgroup_file_path cgroup_base execution_id "cgroup.subtree_control"

/-- Modelled from the spec: the `cgroup.subtree_control` file of the parent
of the leaf (`<cgroup2-mount>/capsule-run/cgroup.subtree_control`), which
§4.1 and claim C7 say receives the controller string. -/
def specParentSubtreeControlPath (cgroup_base : FsPath) : FsPath :=
  cgroup_base ++ ["capsule-run", "cgroup.subtree_control"]

/-- Removal of a directory subtree by `fs::remove_dir_all`: every existing
path having `leaf` as a prefix (the directory itself and everything below
it) disappears from the set of existing paths. -/
def removeDirAll (fs : List FsPath) (leaf : FsPath) : List FsPath :=
  fs.filter (fun q => decide (q.take leaf.length ≠ leaf))

/-- Model of `CgroupManager::cleanup` (`src/sandbox/cgroups.rs` lines
46-57) over a set of existing paths: when the leaf path does not exist the
call is a no-op success; otherwise `fs::remove_dir_all` runs — `removeOk`
abstracts whether that underlying call succeeds, a failure being wrapped
as `CgroupSetup`. -/
def cgroup_cleanup (fs : List FsPath) (leaf : FsPath) (removeOk : Bool) :
    Except SandboxError (List FsPath) :=
  if leaf ∈ fs then
    if removeOk then .ok (removeDirAll fs leaf)
    else .error (.cgroupSetup "Failed to cleanup cgroup")
  else .ok fs

/-- The memory limit recorded by `MacOSSandbox::setup` (`src/sandbox/macos.rs`
lines 61-65): `Some(memory_bytes)` when positive, `None` otherwise. -/
def macosMaxMemory (memory_bytes : Nat) : Option Nat :=
  if memory_bytes > 0 then some memory_bytes else none

/-- Model of `MacOSSandbox::check_oom_killed` (`src/sandbox/macos.rs` lines
179-188): with a configured limit the sampled `usage.memory_bytes` is
compared with strict `>`; without a limit the result is `false`. -/
def check_oom_killed (max_memory_bytes : Option Nat) (sampled_memory : Nat) :
    Bool :=
  match max_memory_bytes with
  | some max_memory => sampled_memory > max_memory
  | none => false

/-- The closed set of error codes stated by spec §7 and claim C4. -/
def specErrorCodes : List String :=
  ["E1001", "E2001", "E2002", "E2003", "E2004", "E2005", "E2006",
   "E3001", "E3003", "E3006", "E4002", "E6001", "E6003"]

/-- Every error code the program can place in a response: the full range
of `impl From<CapsuleError> for ErrorCode` (`src/error.rs`) together with
the hard-coded `E3001`, `E3003` and `E4002` of `src/executor/mod.rs` and
`src/api/schema.rs`. -/
def emittedErrorCodes : List String :=
  ["E1001", "E2001", "E2002", "E2003", "E2004", "E2005", "E2006",
   "E3001", "E3002", "E3003", "E3004", "E3005", "E3006",
   "E4001", "E4002", "E5001", "E6001", "E6002", "E6003"]

theorem errorCodeFrom_code_mem (e : CapsuleError) :
    (errorCodeFrom e).code ∈ emittedErrorCodes := by
  cases e with
  | sandboxSetup se => cases se <;> (simp only [errorCodeFrom]; decide)
  | execution ee => cases ee <;> (simp only [errorCodeFrom]; decide)
  | _ => simp only [errorCodeFrom]; decide

theorem captureStreamGo_ok_length (max_size : Nat) (stream_name : String) :
    ∀ (events : List ReadEvent) (buffer out : ByteSeq),
      buffer.length ≤ max_size →
      captureStreamGo max_size stream_name events buffer = .ok out →
      out.length ≤ max_size := by
  intro events
  induction events with
  | nil =>
      intro buffer out hb h
      simp only [captureStreamGo] at h
      cases h
      exact hb
  | cons ev rest ih =>
      intro buffer out hb h
      cases ev with
      | chunk data =>
          simp only [captureStreamGo] at h
          by_cases hgt : buffer.length + data.length > max_size
          · rw [if_pos hgt] at h
            cases h
          · rw [if_neg hgt] at h
            have hlen : (buffer ++ data).length ≤ max_size := by
              rw [List.length_append]
              omega
            exact ih (buffer ++ data) out hlen h
      | interrupted =>
          simp only [captureStreamGo] at h
          exact ih buffer out hb h
      | readErr e =>
          simp only [captureStreamGo] at h
          cases h

theorem capture_stream_ok_length (events : List ReadEvent) (max_size : Nat)
    (stream_name : String) (out : ByteSeq)
    (h : capture_stream events max_size stream_name = .ok out) :
    out.length ≤ max_size :=
  captureStreamGo_ok_length max_size stream_name events [] out
    (by simp) h

theorem wait_for_completion_ok_lengths (stdout_events stderr_events : List ReadEvent)
    (max_output_size : Nat) (stdout stderr : ByteSeq)
    (h : wait_for_completion stdout_events stderr_events max_output_size =
      .ok (stdout, stderr)) :
    stdout.length ≤ max_output_size ∧ stderr.length ≤ max_output_size := by
  unfold wait_for_completion at h
  cases h1 : capture_stream stdout_events max_output_size "stdout" with
  | error e => rw [h1] at h; cases h
  | ok out1 =>
      rw [h1] at h
      cases h2 : capture_stream stderr_events max_output_size "stderr" with
      | error e => rw [h2] at h; cases h
      | ok out2 =>
          rw [h2] at h
          simp only [Except.ok.injEq, Prod.mk.injEq] at h
          obtain ⟨h3, h4⟩ := h
          subst h3; subst h4
          exact ⟨capture_stream_ok_length _ _ _ _ h1,
                 capture_stream_ok_length _ _ _ _ h2⟩

theorem cgroup_cleanup_ok_not_mem (fs fs2 : List FsPath) (leaf : FsPath)
    (removeOk : Bool)
    (h : cgroup_cleanup fs leaf removeOk = .ok fs2) : leaf ∉ fs2 := by
  unfold cgroup_cleanup at h
  by_cases hm : leaf ∈ fs
  · rw [if_pos hm] at h
    cases removeOk with
    | false => simp at h
    | true =>
        simp only [if_true, Except.ok.injEq] at h
        subst h
        intro hmem
        have hf := List.mem_filter.mp hmem
        simp [List.take_length] at hf
  · rw [if_neg hm] at h
    simp only [Except.ok.injEq] at h
    subst h
    exact hm

/-- Claim C1, counterexample: the output cap is enforced per stream, not on
the sum.  With `max_output_bytes = 1`, a child emitting one stdout byte and
one stderr byte yields a `Success` response whose combined captured length
is `2 > 1`, and no `E3006` error is raised, so the combined-length bound of
the claim fails on the code. -/
theorem c1_counterexample :
    responseOfOutcome 0 5000 0
        (wait_for_completion [.chunk [65]] [.chunk [66]] 1)
        ⟨0, 0, 0, 0, 0, 0, 0⟩ 0 0 (.exited 0) =
      ExecutionResponse.success 0 0 [65] [66] ⟨0, 0, 0, 0, 0, 0, 0⟩ 0 0 ∧
    ([65] : ByteSeq).length + ([66] : ByteSeq).length = 2 ∧
    ¬ (2 ≤ 1) := by
  refine ⟨rfl, rfl, by decide⟩

/-- Claim C1, amended: each captured stream is individually bounded by
`max_output_bytes` (`IoCapture::capture_stream` checks
`buffer.len() + n > max_size` per stream), and when a single stream's
cumulative size breaches the bound the capture returns `OutputSizeLimit`,
which the executor surfaces as a status-`Error` response with code
`E3006`. -/
theorem c1_per_stream_cap (stdout_events stderr_events : List ReadEvent)
    (max_output_bytes : Nat) (stdout stderr : ByteSeq)
    (h : wait_for_completion stdout_events stderr_events max_output_bytes =
      .ok (stdout, stderr))
    (execution_id timeout_ms memory_bytes : Nat) (code : Int)
    (metrics : ExecutionMetrics) (started completed : Int) :
    stdout.length ≤ max_output_bytes ∧ stderr.length ≤ max_output_bytes ∧
    (responseOfOutcome execution_id timeout_ms memory_bytes
        (.error (.execution (.outputSizeLimit max_output_bytes))) metrics
        started completed (.exited code)).status = .error ∧
    (responseOfOutcome execution_id timeout_ms memory_bytes
        (.error (.execution (.outputSizeLimit max_output_bytes))) metrics
        started completed (.exited code)).error =
      some { code := "E3006"
             message := "Output exceeded size limit of " ++
               toString max_output_bytes ++ " bytes"
             details := none } := by
  obtain ⟨h1, h2⟩ :=
    wait_for_completion_ok_lengths stdout_events stderr_events
      max_output_bytes stdout stderr h
  exact ⟨h1, h2, rfl, rfl⟩

/-- Claim C1, witness: the amended theorem applied to a concrete capture
(one byte on each stream, limit 1) and a concrete size-limit error. -/
theorem c1_per_stream_cap_witness :
    ([65] : ByteSeq).length ≤ 1 ∧ ([66] : ByteSeq).length ≤ 1 ∧
    (responseOfOutcome 0 5000 0
        (.error (.execution (.outputSizeLimit 1))) ⟨0, 0, 0, 0, 0, 0, 0⟩
        0 0 (.exited 0)).status = .error ∧
    (responseOfOutcome 0 5000 0
        (.error (.execution (.outputSizeLimit 1))) ⟨0, 0, 0, 0, 0, 0, 0⟩
        0 0 (.exited 0)).error =
      some { code := "E3006"
             message := "Output exceeded size limit of " ++ toString 1 ++ " bytes"
             details := none } :=
  c1_per_stream_cap [.chunk [65]] [.chunk [66]] 1 [65] [66] rfl
    0 5000 0 0 ⟨0, 0, 0, 0, 0, 0, 0⟩ 0 0

/-- Claim C2: when a poll-loop tick observes `elapsed ≥ timeout` the loop
terminates with `TimedOut` and the response is exactly the
`ExecutionResponse::timeout` value — status `Timeout`, error code `E3001`
with details `{timeout_ms, elapsed_ms}`, and `stdout`, `stderr`, `metrics`
and `exit_code` all absent. -/
theorem c2_timeout_response (timeout_ms : Nat) (t : TickObs)
    (ts : List TickObs) (h : timeout_ms ≤ t.elapsed)
    (execution_id memory_bytes : Nat)
    (ioResult : Except CapsuleError (ByteSeq × ByteSeq))
    (metrics : ExecutionMetrics) (started completed : Int) :
    pollLoop timeout_ms (t :: ts) = some .timedOut ∧
    responseOfOutcome execution_id timeout_ms memory_bytes ioResult metrics
        started completed .timedOut =
      { execution_id := execution_id
        status := .timeout
        exit_code := none
        stdout := none
        stderr := none
        metrics := none
        started := started
        completed := completed
        error := some
          { code := "E3001"
            message := "Command exceeded timeout limit of " ++
              toString timeout_ms ++ "ms"
            details := some [("timeout_ms", .num timeout_ms),
                             ("elapsed_ms", .num (completed - started))] } } := by
  constructor
  · simp [pollLoop, stepTick, h]
  · rfl

/-- Claim C2, witness: the timeout theorem applied to a tick at the
deadline with concrete timestamps. -/
theorem c2_timeout_response_witness :
    pollLoop 100 [⟨100, .ok none, false⟩] = some .timedOut ∧
    responseOfOutcome 0 100 0 (.ok ([], [])) ⟨0, 0, 0, 0, 0, 0, 0⟩
        5 25 .timedOut =
      { execution_id := 0
        status := .timeout
        exit_code := none
        stdout := none
        stderr := none
        metrics := none
        started := 5
        completed := 25
        error := some
          { code := "E3001"
            message := "Command exceeded timeout limit of " ++
              toString 100 ++ "ms"
            details := some [("timeout_ms", .num 100),
                             ("elapsed_ms", .num (25 - 5))] } } :=
  c2_timeout_response 100 ⟨100, .ok none, false⟩ [] (by decide)
    0 0 (.ok ([], [])) ⟨0, 0, 0, 0, 0, 0, 0⟩ 5 25

/-- Claim C3: every response `Executor::execute` builds — via the
`success`, `error` and `timeout` constructors on each terminal path — has
exactly one of the four statuses, a defined `exit_code` when the status is
`Success`, and a defined `error` for every other status. -/
theorem c3_response_well_formed (execution_id timeout_ms memory_bytes : Nat)
    (ioResult : Except CapsuleError (ByteSeq × ByteSeq))
    (metrics : ExecutionMetrics) (started completed : Int) (o : ExecOutcome) :
    ((executeResponse execution_id timeout_ms memory_bytes ioResult metrics
        started completed o).status = .success ∨
     (executeResponse execution_id timeout_ms memory_bytes ioResult metrics
        started completed o).status = .error ∨
     (executeResponse execution_id timeout_ms memory_bytes ioResult metrics
        started completed o).status = .timeout ∨
     (executeResponse execution_id timeout_ms memory_bytes ioResult metrics
        started completed o).status = .killed) ∧
    wellFormed (executeResponse execution_id timeout_ms memory_bytes ioResult
      metrics started completed o) = true := by
  constructor
  · cases (executeResponse execution_id timeout_ms memory_bytes ioResult
      metrics started completed o).status <;> simp
  · cases o with
    | setupFailed e => rfl
    | spawnFailedOutcome msg => rfl
    | polled lo =>
        cases lo with
        | timedOut => rfl
        | signaled sig => rfl
        | exited code =>
            cases ioResult with
            | error e => rfl
            | ok p => obtain ⟨a, b⟩ := p; rfl
        | monitorError msg => rfl
        | oomKilled => rfl

/-- Claim C10: no terminal path of `Executor::execute` produces a `Killed`
status — every response has status `Success`, `Error` or `Timeout`, so the
`ExecutionStatus::Killed => 128 + 9` arm of `run` in `src/main.rs` is
unreachable. -/
theorem c10_never_killed (execution_id timeout_ms memory_bytes : Nat)
    (ioResult : Except CapsuleError (ByteSeq × ByteSeq))
    (metrics : ExecutionMetrics) (started completed : Int) (o : ExecOutcome) :
    (executeResponse execution_id timeout_ms memory_bytes ioResult metrics
        started completed o).status = .success ∨
    (executeResponse execution_id timeout_ms memory_bytes ioResult metrics
        started completed o).status = .error ∨
    (executeResponse execution_id timeout_ms memory_bytes ioResult metrics
        started completed o).status = .timeout := by
  cases o with
  | setupFailed e => right; left; rfl
  | spawnFailedOutcome msg => right; left; rfl
  | polled lo =>
      cases lo with
      | timedOut => right; right; rfl
      | signaled sig => right; left; rfl
      | exited code =>
          cases ioResult with
          | error e => right; left; rfl
          | ok p => obtain ⟨a, b⟩ := p; left; rfl
      | monitorError msg => right; left; rfl
      | oomKilled => right; left; rfl

/-- Claim C4, counterexample: a `try_wait` inspection error yields an
error response whose code is `E3005`, which is outside the closed set of
spec §7, so the claimed closed set does not cover the codes the program
emits. -/
theorem c4_counterexample :
    (executeResponse 0 1000 0 (.ok ([], [])) ⟨0, 0, 0, 0, 0, 0, 0⟩ 0 0
        (.polled (.monitorError "boom"))).error =
      some { code := "E3005", message := "boom", details := none } ∧
    "E3005" ∉ specErrorCodes := by
  exact ⟨rfl, by decide⟩

/-- Claim C4, amended: the closed set must also contain `E3002`, `E3004`,
`E3005`, `E4001`, `E5001` and `E6002` (the remaining codes of
`impl From<CapsuleError> for ErrorCode`); every error response the
executor emits carries a code from that extended set. -/
theorem c4_emitted_codes (execution_id timeout_ms memory_bytes : Nat)
    (ioResult : Except CapsuleError (ByteSeq × ByteSeq))
    (metrics : ExecutionMetrics) (started completed : Int) (o : ExecOutcome)
    (er : ErrorResponse)
    (h : (executeResponse execution_id timeout_ms memory_bytes ioResult
        metrics started completed o).error = some er) :
    er.code ∈ emittedErrorCodes := by
  cases o with
  | setupFailed e =>
      simp only [executeResponse, ExecutionResponse.errorResp,
        Option.some.injEq] at h
      rw [← h]
      exact errorCodeFrom_code_mem e
  | spawnFailedOutcome msg =>
      simp only [executeResponse, ExecutionResponse.errorResp,
        Option.some.injEq] at h
      rw [← h]
      exact errorCodeFrom_code_mem (.execution (.spawnFailed msg))
  | polled lo =>
      cases lo with
      | timedOut =>
          simp only [executeResponse, responseOfOutcome,
            ExecutionResponse.timeout, Option.some.injEq] at h
          rw [← h]
          show "E3001" ∈ emittedErrorCodes
          decide
      | signaled sig =>
          simp only [executeResponse, responseOfOutcome,
            ExecutionResponse.errorResp, Option.some.injEq] at h
          rw [← h]
          show "E3003" ∈ emittedErrorCodes
          decide
      | exited code =>
          cases ioResult with
          | error e =>
              simp only [executeResponse, responseOfOutcome,
                ExecutionResponse.errorResp, Option.some.injEq] at h
              rw [← h]
              exact errorCodeFrom_code_mem e
          | ok p =>
              obtain ⟨a, b⟩ := p
              simp [executeResponse, responseOfOutcome,
                ExecutionResponse.success] at h
      | monitorError msg =>
          simp only [executeResponse, responseOfOutcome,
            ExecutionResponse.errorResp, Option.some.injEq] at h
          rw [← h]
          exact errorCodeFrom_code_mem (.execution (.monitoringError msg))
      | oomKilled =>
          simp only [executeResponse, responseOfOutcome,
            ExecutionResponse.errorResp, Option.some.injEq] at h
          rw [← h]
          show "E4002" ∈ emittedErrorCodes
          decide

/-- Claim C4, witness: the amended theorem applied to a concrete timeout
outcome, whose error code `E3001` lies in the extended set. -/
theorem c4_emitted_codes_witness :
    ({ code := "E3001"
       message := "Command exceeded timeout limit of " ++ toString 1000 ++ "ms"
       details := some [("timeout_ms", .num 1000), ("elapsed_ms", .num (0 - 0))]
       : ErrorResponse }).code ∈ emittedErrorCodes :=
  c4_emitted_codes 0 1000 0 (.ok ([], [])) ⟨0, 0, 0, 0, 0, 0, 0⟩ 0 0
    (.polled .timedOut) _ rfl

/-- Claim C5, counterexample: in a tick where `try_wait` reports a normal
exit (code 0) and the OOM flag is simultaneously positive, the loop
terminates with `Exited 0` — and the response built for that outcome is a
`Success` with no error — not the `E4002` error the claim requires. -/
theorem c5_counterexample :
    stepTick 1000 ⟨0, .ok (some ⟨some 0, none⟩), true⟩ = some (.exited 0) ∧
    (responseOfOutcome 7 1000 512 (.ok ([], [])) ⟨0, 0, 0, 0, 0, 0, 0⟩ 0 0
        (.exited 0)).status = .success ∧
    (responseOfOutcome 7 1000 512 (.ok ([], [])) ⟨0, 0, 0, 0, 0, 0, 0⟩ 0 0
        (.exited 0)).error = none :=
  ⟨rfl, rfl, rfl⟩

/-- Claim C5, amended: the exit status wins over OOM within one tick.
Before the deadline, a tick whose `try_wait` observes a non-signal exit
terminates the loop with `Exited(status.code().unwrap_or(-1))` even when
the OOM flag is positive in the same tick, and the response for that
outcome (with a successful I/O join) has status `Success`; the `E4002`
classification is reached only when `try_wait` reports the child still
running. -/
theorem c5_exit_wins (timeout_ms : Nat) (t : TickObs) (st : ExitStatus)
    (h1 : t.elapsed < timeout_ms) (h2 : t.tryWait = .ok (some st))
    (h3 : st.signal = none) (h4 : t.oom = true)
    (execution_id memory_bytes : Nat) (stdout stderr : ByteSeq)
    (metrics : ExecutionMetrics) (started completed : Int) :
    stepTick timeout_ms t = some (.exited (st.code.getD (-1))) ∧
    (responseOfOutcome execution_id timeout_ms memory_bytes
        (.ok (stdout, stderr)) metrics started completed
        (.exited (st.code.getD (-1)))).status = .success := by
  constructor
  · unfold stepTick
    rw [if_neg (by omega), h2]
    simp [h3]
  · rfl

/-- Claim C5, witness: the amended theorem applied to the concrete
both-observable tick of the counterexample's shape. -/
theorem c5_exit_wins_witness :
    stepTick 1000 ⟨0, .ok (some ⟨some 3, none⟩), true⟩ =
      some (.exited ((some (3 : Int)).getD (-1))) ∧
    (responseOfOutcome 7 1000 512 (.ok ([65], [])) ⟨0, 0, 0, 0, 0, 0, 0⟩ 0 0
        (.exited ((some (3 : Int)).getD (-1)))).status = .success :=
  c5_exit_wins 1000 ⟨0, .ok (some ⟨some 3, none⟩), true⟩ ⟨some 3, none⟩
    (by decide) rfl rfl rfl 7 512 [65] [] ⟨0, 0, 0, 0, 0, 0, 0⟩ 0 0

/-- Claim C6: the code writes the `cpu_shares` value to `cpu.weight`
verbatim (`CgroupManager::set_cpu_limit`), with no clamp into `[1, 10000]`.
At the failing input `cpu_shares = 0` the setup writes the string `"0"`,
while the clamped value the claim requires is `1`; likewise `20000` is
written as `"20000"` instead of `"10000"`. -/
theorem c6_cpu_weight_verbatim :
    ("cpu.weight", "0") ∈ cgroupSetupWrites ⟨268435456, 0, 1048576, 100⟩ 42 ∧
    specClampWeight 0 = 1 ∧ ("0" : String) ≠ "1" ∧
    ("cpu.weight", "20000") ∈
      cgroupSetupWrites ⟨268435456, 20000, 1048576, 100⟩ 42 ∧
    specClampWeight 20000 = 10000 ∧
    (∀ (limits : ResourceLimits) (pid : Nat),
      ("cpu.weight", toString limits.cpu_shares) ∈ cgroupSetupWrites limits pid) := by
  refine ⟨by decide, by decide, by decide, by decide, by decide, ?_⟩
  intro limits pid
  simp [cgroupSetupWrites]

/-- Claim C7: `CgroupManager::create_cgroup` passes
`"cgroup.subtree_control"` to `write_cgroup_file`, which joins the file
name under the leaf cgroup path, so the controller string lands in
`<mount>/capsule-run/<id>/cgroup.subtree_control` — the leaf's own file —
and not in the parent's file that the claim (and cgroup-v2 semantics)
require. -/
theorem c7_subtree_control_leaf :
    subtree_control_write_path ["sys", "fs", "cgroup"] "abc" =
      ["sys", "fs", "cgroup", "capsule-run", "abc", "cgroup.subtree_control"] ∧
    specParentSubtreeControlPath ["sys", "fs", "cgroup"] =
      ["sys", "fs", "cgroup", "capsule-run", "cgroup.subtree_control"] ∧
    subtree_control_write_path ["sys", "fs", "cgroup"] "abc" ≠
      specParentSubtreeControlPath ["sys", "fs", "cgroup"] ∧
    (∀ (cgroup_base : FsPath) (execution_id : String),
      subtree_control_write_path cgroup_base execution_id =
        cgroup_path cgroup_base execution_id ++ ["cgroup.subtree_control"]) :=
  ⟨rfl, rfl, by decide, fun _ _ => rfl⟩

/-- Claim C8: `CgroupManager::cleanup` succeeds without touching the state
when the leaf path is absent; a successful cleanup leaves the leaf path
nonexistent; and a second cleanup after a successful one therefore also
succeeds (returning the state unchanged). -/
theorem c8_cleanup_missing_ok (fs fs2 : List FsPath) (leaf : FsPath)
    (removeOk removeOk2 : Bool) :
    (leaf ∉ fs → cgroup_cleanup fs leaf removeOk = .ok fs) ∧
    (cgroup_cleanup fs leaf removeOk = .ok fs2 → leaf ∉ fs2) ∧
    (cgroup_cleanup fs leaf removeOk = .ok fs2 →
      cgroup_cleanup fs2 leaf removeOk2 = .ok fs2) := by
  refine ⟨?_, ?_, ?_⟩
  · intro h
    unfold cgroup_cleanup
    rw [if_neg h]
  · exact cgroup_cleanup_ok_not_mem fs fs2 leaf removeOk
  · intro h
    have hnm := cgroup_cleanup_ok_not_mem fs fs2 leaf removeOk h
    unfold cgroup_cleanup
    rw [if_neg hnm]

/-- Claim C8, witness: the theorem applied to concrete states — a cleanup
with the leaf absent, and a successful removal of leaf `["x"]` from
`[["x"], ["z"]]` followed by a second successful cleanup. -/
theorem c8_cleanup_missing_ok_witness :
    cgroup_cleanup [["a"]] ["b"] true = .ok [["a"]] ∧
    (["x"] : FsPath) ∉ ([["z"]] : List FsPath) ∧
    cgroup_cleanup [["z"]] ["x"] true = .ok [["z"]] :=
  ⟨(c8_cleanup_missing_ok [["a"]] [["a"]] ["b"] true true).1 (by decide),
   (c8_cleanup_missing_ok [["x"], ["z"]] [["z"]] ["x"] true true).2.1 (by decide),
   (c8_cleanup_missing_ok [["x"], ["z"]] [["z"]] ["x"] true true).2.2 (by decide)⟩

/-- Claim C9, counterexample: with a configured limit of 100 bytes and a
sampled usage of exactly 100 bytes the claim's `current ≥ limit` predicate
holds, yet `MacOSSandbox::check_oom_killed` returns `false`, because the
code compares with strict `>`. -/
theorem c9_counterexample :
    (macosMaxMemory 100).isSome = true ∧ 100 ≥ 100 ∧
    check_oom_killed (macosMaxMemory 100) 100 = false := by
  decide

/-- Claim C9, amended: on the macOS sandbox, `check_oom_killed` returns
true exactly when a memory limit is configured and the sampled memory
usage is strictly greater than that limit; with no limit configured it
returns false. -/
theorem c9_strict_oom (max_memory_bytes : Option Nat) (sampled : Nat) :
    (check_oom_killed max_memory_bytes sampled = true ↔
      ∃ m, max_memory_bytes = some m ∧ m < sampled) ∧
    check_oom_killed none sampled = false := by
  constructor
  · cases max_memory_bytes with
    | none => simp [check_oom_killed]
    | some m => simp [check_oom_killed, Nat.lt_iff_add_one_le]
  · rfl
